import Mathlib

/-!
Shallow embedding of `easybuild/easyblocks/m/mxnet.py` (class `EB_MXNet`).

The easyblock is procedural glue: it assembles a combined MXNet source tree
(`extract_step`), derives build flags from the toolchain's BLAS backend
(`configure_step`), installs the Python and (optionally) R bindings
(`extensions_step` / `install_r_ext`), runs sanity checks
(`sanity_check_step`), and emits module environment statements
(`make_module_extra`).

Filesystem state is modelled explicitly: the build directory's immediate
children are a list of `DirEnt` (name plus immediate sub-entries), the
`3rdparty` directory of the main source tree is a list of entry names.
Fallible filesystem moves are modelled by an oracle telling, for a given
(source path, destination path) pair, whether `shutil.move` fails and with
which error message.  Steps that shell out are modelled as traces of
abstract actions.
-/

namespace MXNet

/-- Errors surfaced by the easyblock.  `discovery`, `move`, `config` and
`sanity` correspond to the four `EasyBuildError` raise sites; `unbound`
models a Python `NameError` from reading a local variable that no branch
assigned (it is not an `EasyBuildError`). -/
inductive EBError where
  | discovery (dirs : List String)
  | move (src dst ioerr : String)
  | config (msg : String)
  | sanity (msg : String)
  | unbound (var : String)
  deriving DecidableEq, Repr

/-- String `pat` occurs as a contiguous substring of `s`. -/
def strContains (pat s : String) : Bool :=
  decide (pat.toList <:+: s.toList)

/-- Python `os.path.join a b` for a relative component `b`
(`os.path.join("a", "") = "a/"`). -/
def pathJoin (a b : String) : String :=
  if b = "" then a ++ "/" else a ++ "/" ++ b

/-- Head of Python `s.rpartition('-')` on a character list: everything
before the last `'-'`, or `[]` when no `'-'` occurs (in which case Python
puts the whole string in the tail and the head is empty). -/
def rpartHyphenAux : List Char → Option (List Char)
  | [] => none
  | c :: cs =>
    match rpartHyphenAux cs with
    | some t => some (c :: t)
    | none => if c = '-' then some [] else none

/-- Head of Python `srcdir.rpartition('-')`: the submodule name before the
trailing `-<version>` segment, empty when the name has no hyphen. -/
def rpartitionHead (s : String) : String :=
  match rpartHyphenAux s.toList with
  | some l => String.mk l
  | none => ""

/-!  ## configure_step (lines 129-155)

Inputs are the environment variables read via `os.getenv`, the resolved
toolchain BLAS identifier, the `imkl` module version, and presence of an
NNPACK root.  The result is the final `buildopts` list handed on to the
inherited `configure_step` (and hence to the external build tool), or the
error that aborts the step.
-/

/-- Python `'%s' % v` for `v` an `os.getenv` result: `None` prints as the
string `"None"`. -/
def optStr : Option String → String
  | some s => s
  | none => "None"

/-- One `VAR="value"` build option as produced by
`self.cfg.update('buildopts', '%s="%s"' % (var, value))`. -/
def kvOpt (var : String) (val : Option String) : String :=
  var ++ "=\"" ++ optStr val ++ "\""

/-- Python truthiness of `get_software_root(...)` / `os.getenv(...)`:
`None` and the empty string are falsy. -/
def pyTruthy : Option String → Bool
  | some s => !s.isEmpty
  | none => false

/-- Split a character list on `'.'` separators. -/
def splitOnDot : List Char → List (List Char)
  | [] => [[]]
  | c :: cs =>
    if c = '.' then [] :: splitOnDot cs
    else
      match splitOnDot cs with
      | [] => [[c]]
      | h :: t => (c :: h) :: t

/-- Numeric value of a digit string. -/
def digitsVal (l : List Char) : Nat :=
  l.foldl (fun n c => n * 10 + (c.toNat - 48)) 0

/-- Components of a `distutils` `LooseVersion` for the purely numeric
dotted versions compared here (e.g. `"18.0"` ↦ `[18, 0]`). -/
def looseVersionParts (s : String) : List Nat :=
  (splitOnDot s.toList).map digitsVal

/-- Python list `<` on version component lists (lexicographic, a strict
prefix is smaller). -/
def natListLt : List Nat → List Nat → Bool
  | [], [] => false
  | [], _ :: _ => true
  | _ :: _, [] => false
  | a :: as, b :: bs => if a < b then true else if b < a then false else natListLt as bs

/-- Python `LooseVersion(x) >= LooseVersion(y)`. -/
def looseVersionGE (x y : String) : Bool :=
  !natListLt (looseVersionParts x) (looseVersionParts y)

/-- The inputs `configure_step` reads from its surroundings. -/
structure ConfigInputs where
  cc : Option String          -- os.getenv('CC')
  cxx : Option String         -- os.getenv('CXX')
  cflags : Option String      -- os.getenv('CFLAGS')
  ldflags : Option String     -- os.getenv('LDFLAGS')
  blas : Option String        -- self.toolchain.definition().get('BLAS', None)[0]
  imklVersion : String        -- get_software_version('imkl'), read in imkl branch only
  mklroot : Option String     -- os.getenv('MKLROOT')
  nnpackRoot : Option String  -- get_software_root('NNPACK')
  deriving Repr

/-- The BLAS dispatch of `configure_step` (lines 134-148): returns the value
bound to the Python local `blas` (`none` when no branch assigned it) and the
build options accumulated so far, or the `EasyBuildError` for a missing
backend.  Mirrors the `if/elif` chain of the source. -/
def blasDispatch (i : ConfigInputs) (bo : List String) :
    Except EBError (Option String × List String) :=
  if i.blas = some "imkl" then
    let bo := if looseVersionGE i.imklVersion "17" then bo ++ ["USE_MKL2017=1"] else bo
    Except.ok (some "mkl", bo ++ [kvOpt "MKLML_ROOT" i.mklroot])
  else if i.blas = some "ACML" ∨ i.blas = some "ATLAS" then
    Except.ok (some "atlas", bo)
  else if i.blas = some "OpenBLAS" then
    Except.ok (some "openblas", bo)
  else if i.blas = some "FlexiBLAS" then
    Except.ok (some "flexiblas", bo)
  else if i.blas = none then
    Except.error (EBError.config "No BLAS library found in the toolchain")
  else
    Except.ok (none, bo)

/-- `EB_MXNet.configure_step` (lines 129-155): accumulates the four
compiler/linker options, dispatches on the BLAS backend, appends
`USE_BLAS="..."` (a `NameError` when no branch bound `blas`), and appends
`USE_NNPACK=1` when NNPACK is present.  `buildopts` is the list already
accumulated on the easyconfig before this step. -/
def configure_step (i : ConfigInputs) (buildopts : List String) :
    Except EBError (List String) :=
  let bo := buildopts ++
    [kvOpt "CC" i.cc, kvOpt "CXX" i.cxx,
     kvOpt "ADD_CFLAGS" i.cflags, kvOpt "ADD_LDFLAGS" i.ldflags]
  match blasDispatch i bo with
  | Except.error e => Except.error e
  | Except.ok (none, _) => Except.error (EBError.unbound "blas")
  | Except.ok (some blasName, bo) =>
    let bo := bo ++ [kvOpt "USE_BLAS" (some blasName)]
    let bo := if pyTruthy i.nnpackRoot then bo ++ ["USE_NNPACK=1"] else bo
    Except.ok bo

/-!  ## extract_step (lines 87-122)

The build directory's immediate children are `DirEnt`s: a name and the
names of the entry's own immediate sub-entries (the latter only matter in
the degenerate case where a dependency with an empty submodule name
replaces the whole `3rdparty` directory).  The `3rdparty` directory of the
selected main tree is a list of entry names; it is assumed to exist.
`shutil.move` failures are modelled by an oracle from (source path,
destination path) to an optional error message.  An `os.rename` collision
of the oneDNN renaming (possible only when two children share a normalized
submodule name) is not modelled.
-/

/-- An immediate child of the build directory: its name and the names of
its own immediate sub-entries. -/
structure DirEnt where
  name : String
  contents : List String
  deriving DecidableEq, Repr

/-- Whether a name starts with a `'.'` (glob patterns skip such entries). -/
def startsWithDot (s : String) : Bool :=
  match s.toList with
  | c :: _ => c = '.'
  | [] => false

/-- Whether a build-directory child is matched by
`glob.glob(os.path.join(self.builddir, '*mxnet-*'))`: its name contains
`"mxnet-"` (and, per glob semantics, does not start with a dot). -/
def matchesMxnetGlob (s : String) : Bool :=
  strContains "mxnet-" s && !startsWithDot s

/-- The children matched by the `*mxnet-*` glob, in directory order. -/
def mxnetGlob (root : List DirEnt) : List DirEnt :=
  root.filter (fun d => matchesMxnetGlob d.name)

/-- Submodule name derived from a dependency directory name (lines
103-107): head of `rpartition('-')`, with `oneDNN` mapped to `mkldnn`. -/
def normalizeSubmodule (s : String) : String :=
  let submodule := rpartitionHead s
  if submodule = "oneDNN" then "mkldnn" else submodule

/-- Python `str.replace`: replace non-overlapping occurrences of `pat` left
to right, on character lists.  `fuel` bounds the recursion; it is called
with the list's length, which suffices since each step consumes at least
one character. -/
def replaceCharsAux (pat repl : List Char) : Nat → List Char → List Char
  | _, [] => []
  | 0, l => l
  | fuel + 1, c :: cs =>
    if pat.isPrefixOf (c :: cs) && !pat.isEmpty then
      repl ++ replaceCharsAux pat repl fuel ((c :: cs).drop pat.length)
    else
      c :: replaceCharsAux pat repl fuel cs

/-- Python `s.replace(pat, repl)`. -/
def strReplace (s pat repl : String) : String :=
  String.mk (replaceCharsAux pat.toList repl.toList s.toList.length s.toList)

/-- On-disk name of the dependency directory at move time (lines 106-111):
renamed via `srcdir.replace('oneDNN', 'mkldnn')` when the submodule head is
`oneDNN`, unchanged otherwise. -/
def depDiskName (s : String) : String :=
  if rpartitionHead s = "oneDNN" then strReplace s "oneDNN" "mkldnn" else s

/-- Destination path of a dependency (line 114):
`os.path.join(self.mxnet_src_dir, '3rdparty', submodule)`. -/
def depDest (mainSrcDir : String) (s : String) : String :=
  pathJoin (pathJoin mainSrcDir "3rdparty") (normalizeSubmodule s)

/-- A move-failure oracle: for a (source, destination) pair, `some msg`
means `shutil.move` raises an `IOError` with message `msg`. -/
def MoveOracle := String → String → Option String

/-- The oracle under which every filesystem move succeeds. -/
def okOracle : MoveOracle := fun _ _ => none

/-- The loop of lines 102-122 over the dependency directories: for each one,
compute the submodule name (with the oneDNN rename), remove any existing
destination (`remove_dir`, a recursive delete that is a no-op on a missing
path), and move the directory into `3rdparty`.  State is (names of
dependency directories still at build-root level, entries of `3rdparty`).
A move failure aborts with the wrapping `EasyBuildError` (line 122).
An empty submodule name makes the destination `…/3rdparty/` itself, so the
whole `3rdparty` directory is deleted and replaced by the moved
dependency. -/
def processDeps (oracle : MoveOracle) (builddir mainSrcDir : String) :
    List DirEnt → List String → Except EBError (List String × List String)
  | [], tp => Except.ok ([], tp)
  | d :: ds, tp =>
    let sub := normalizeSubmodule d.name
    let olddir := pathJoin builddir (depDiskName d.name)
    let newdir := depDest mainSrcDir d.name
    let tp := if sub = "" then d.contents else tp.filter (fun e => e ≠ sub)
    match oracle olddir newdir with
    | some err => Except.error (EBError.move olddir newdir err)
    | none =>
      processDeps oracle builddir mainSrcDir ds (if sub = "" then tp else tp ++ [sub])

/-- `EB_MXNet.extract_step` (lines 87-122): select the unique `*mxnet-*`
child as the main source directory (raising on zero or several matches,
line 100), then relocate every other child into `mainSrcDir/3rdparty`.
Returns (recorded main source directory path, names of dependency
directories remaining at build-root level, final `3rdparty` entries).
`tp0` is the initial content of the main tree's `3rdparty` directory. -/
def extract_step (oracle : MoveOracle) (builddir : String)
    (root : List DirEnt) (tp0 : List String) :
    Except EBError (String × List String × List String) :=
  match mxnetGlob root with
  | [m] =>
    let mainSrc := pathJoin builddir m.name
    match processDeps oracle builddir mainSrc
        (root.filter (fun d => d.name ≠ m.name)) tp0 with
    | Except.error e => Except.error e
    | Except.ok (rem, tp) => Except.ok (mainSrc, rem, tp)
  | ms => Except.error (EBError.discovery (ms.map (fun d => pathJoin builddir d.name)))

/-!  ## extensions_step, install_r_ext, sanity_check_step, make_module_extra
(lines 65-75 and 162-237)

These steps delegate to sub-installers and shell out; they are modelled as
traces of abstract actions in source order.
-/

/-- Observable actions of the extension, sanity-check and R-install steps. -/
inductive Action where
  | pyPrerun | pyRun | pyPostrun
  | mkdirInst | symlinkLibs | symlinkInclude | writeNamespaceFile
  | rPrerun | rInstallRun | rscriptExport | rPostrun
  | checkLibFiles | loadFakeModule | pySanityCheck | rSanityCheck
  | cleanupFakeModule
  deriving DecidableEq, Repr

/-- Default value of the `install_r_ext` custom easyconfig option
(`extra_options`, line 69). -/
def install_r_ext_default : Bool := false

/-- `EB_MXNet.install_r_ext` (lines 179-200): set up `inst` symlinks, write
the fixed `NAMESPACE` manifest, then install the R package twice around the
`mxnet.export` re-export call (the two-pass install). -/
def install_r_ext_trace : List Action :=
  [Action.mkdirInst, Action.symlinkLibs, Action.symlinkInclude,
   Action.writeNamespaceFile, Action.rPrerun, Action.rInstallRun,
   Action.rscriptExport, Action.rInstallRun, Action.rPostrun]

/-- `EB_MXNet.extensions_step` (lines 162-177): always install the Python
bindings; install the R bindings only when `install_r_ext` is set. -/
def extensions_step (install_r_ext : Bool) : List Action :=
  [Action.pyPrerun, Action.pyRun, Action.pyPostrun] ++
    (if install_r_ext then install_r_ext_trace else [])

/-- `EB_MXNet.sanity_check_step` (lines 202-223): inherited file check,
fake-module load, Python binding sanity check, R binding sanity check,
fake-module cleanup.  The booleans are the outcomes of the fallible
sub-steps (the inherited file check is abstracted as its action); the
result is the trace of actions run plus the error, if any, that aborted the
step. -/
def sanity_check_step (fakeModOk pyOk rOk : Bool) :
    List Action × Option EBError :=
  let t := [Action.checkLibFiles, Action.loadFakeModule]
  if !fakeModOk then
    (t, some (EBError.sanity "Loading fake module failed"))
  else
    let t := t ++ [Action.pySanityCheck]
    if !pyOk then
      (t, some (EBError.sanity "The sanity check for the Python bindings failed"))
    else
      let t := t ++ [Action.rSanityCheck]
      if !rOk then
        (t, some (EBError.sanity "The sanity check for the R bindings failed"))
      else
        (t ++ [Action.cleanupFakeModule], none)

/-- One `module_generator.prepend_paths` statement of the generated module
text: variable name and the (installdir-relative) path prepended to it. -/
structure PrependStmt where
  var : String
  path : String
  deriving DecidableEq, Repr

/-- `EB_MXNet.make_module_extra` (lines 225-237): prepend `PYTHONPATH` with
each Python library directory whose full path exists and is non-empty, then
prepend `R_LIBS` with the installation root (relative path `''`).
`dirExists` and `listDir` are the filesystem oracles behind
`os.path.exists` and `os.listdir`; the module text is modelled as the list
of prepend statements in order. -/
def make_module_extra (installdir : String) (all_pylibdirs : List String)
    (dirExists : String → Bool) (listDir : String → List String) :
    List PrependStmt :=
  (all_pylibdirs.filter (fun p =>
      dirExists (pathJoin installdir p) && !(listDir (pathJoin installdir p)).isEmpty)).map
    (fun p => PrependStmt.mk "PYTHONPATH" p) ++ [PrependStmt.mk "R_LIBS" ""]

/-!  ## Theorems -/

/-- C1: when the toolchain provides no BLAS backend, `configure_step` raises
`EasyBuildError "No BLAS library found in the toolchain"`, and no build-option
list is handed on to the build tool: the step produces no `ok` result. -/
theorem configure_step_no_blas (i : ConfigInputs) (buildopts : List String)
    (h : i.blas = none) :
    configure_step i buildopts =
      Except.error (EBError.config "No BLAS library found in the toolchain") ∧
    ∀ opts, configure_step i buildopts ≠ Except.ok opts := by
  have hd : configure_step i buildopts =
      Except.error (EBError.config "No BLAS library found in the toolchain") := by
    simp [configure_step, blasDispatch, h]
  exact ⟨hd, fun opts hc => by rw [hd] at hc; exact Except.noConfusion hc⟩

/-- Witness for C1 at a concrete toolchain with no BLAS entry. -/
theorem configure_step_no_blas_witness :
    configure_step
        (ConfigInputs.mk (some "gcc") (some "g++") (some "-O2") (some "-Wl") none "" none none) [] =
      Except.error (EBError.config "No BLAS library found in the toolchain") ∧
    ∀ opts, configure_step
        (ConfigInputs.mk (some "gcc") (some "g++") (some "-O2") (some "-Wl") none "" none none) [] ≠
      Except.ok opts :=
  configure_step_no_blas _ _ rfl

/-- C5: with the `imkl` backend at version `18.0` (≥ 17), the derived flags
include `USE_BLAS="mkl"`, the legacy flag `USE_MKL2017=1`, and
`MKLML_ROOT` taken from the `MKLROOT` environment variable. -/
theorem configure_step_imkl18 (i : ConfigInputs) (buildopts : List String)
    (root : String) (hb : i.blas = some "imkl") (hv : i.imklVersion = "18.0")
    (hm : i.mklroot = some root) :
    ∃ opts, configure_step i buildopts = Except.ok opts ∧
      "USE_BLAS=\"mkl\"" ∈ opts ∧ "USE_MKL2017=1" ∈ opts ∧
      "MKLML_ROOT=\"" ++ root ++ "\"" ∈ opts := by
  have hge : looseVersionGE "18.0" "17" = true := by decide
  by_cases hn : pyTruthy i.nnpackRoot
  · refine ⟨((((buildopts ++ [kvOpt "CC" i.cc, kvOpt "CXX" i.cxx, kvOpt "ADD_CFLAGS" i.cflags,
        kvOpt "ADD_LDFLAGS" i.ldflags]) ++ ["USE_MKL2017=1"]) ++ [kvOpt "MKLML_ROOT" i.mklroot]) ++
        [kvOpt "USE_BLAS" (some "mkl")]) ++ ["USE_NNPACK=1"], ?_, ?_, ?_, ?_⟩
    · simp [configure_step, blasDispatch, hb, hv, hge, hn]
    · simp [kvOpt, optStr]
    · simp
    · simp [hm, kvOpt, optStr]
  · refine ⟨(((buildopts ++ [kvOpt "CC" i.cc, kvOpt "CXX" i.cxx, kvOpt "ADD_CFLAGS" i.cflags,
        kvOpt "ADD_LDFLAGS" i.ldflags]) ++ ["USE_MKL2017=1"]) ++ [kvOpt "MKLML_ROOT" i.mklroot]) ++
        [kvOpt "USE_BLAS" (some "mkl")], ?_, ?_, ?_, ?_⟩
    · simp [configure_step, blasDispatch, hb, hv, hge, hn]
    · simp [kvOpt, optStr]
    · simp
    · simp [hm, kvOpt, optStr]

/-- Witness for C5 at a concrete imkl 18.0 toolchain. -/
theorem configure_step_imkl18_witness :
    ∃ opts, configure_step
        (ConfigInputs.mk (some "icc") (some "icpc") none none (some "imkl") "18.0"
          (some "/opt/mkl") none) [] = Except.ok opts ∧
      "USE_BLAS=\"mkl\"" ∈ opts ∧ "USE_MKL2017=1" ∈ opts ∧
      "MKLML_ROOT=\"" ++ "/opt/mkl" ++ "\"" ∈ opts :=
  configure_step_imkl18 _ _ "/opt/mkl" rfl rfl rfl

/-- C10: for a BLAS identifier outside the five handled values, no dispatch
branch binds the Python local `blas`, so `configure_step` fails with an
unbound-variable (`NameError`) failure at the `USE_BLAS` assignment, not
with the documented `EasyBuildError`. -/
theorem configure_step_unknown_blas (i : ConfigInputs) (buildopts : List String)
    (b : String) (hb : i.blas = some b)
    (hk : b ∉ ["imkl", "ACML", "ATLAS", "OpenBLAS", "FlexiBLAS"]) :
    configure_step i buildopts = Except.error (EBError.unbound "blas") ∧
    ∀ msg, configure_step i buildopts ≠ Except.error (EBError.config msg) := by
  simp only [List.mem_cons, List.mem_singleton, not_or] at hk
  obtain ⟨h1, h2, h3, h4, h5⟩ := hk
  have hd : configure_step i buildopts = Except.error (EBError.unbound "blas") := by
    simp [configure_step, blasDispatch, hb, h1, h2, h3, h4, h5]
  refine ⟨hd, fun msg hc => ?_⟩
  rw [hd] at hc
  exact EBError.noConfusion (Except.error.inj hc)

/-- Witness for C10 at the unhandled BLAS identifier `BLIS`. -/
theorem configure_step_unknown_blas_witness :
    configure_step
        (ConfigInputs.mk none none none none (some "BLIS") "" none none) [] =
      Except.error (EBError.unbound "blas") ∧
    ∀ msg, configure_step
        (ConfigInputs.mk none none none none (some "BLIS") "" none none) [] ≠
      Except.error (EBError.config msg) :=
  configure_step_unknown_blas _ _ "BLIS" rfl (by decide)

/-!  ### Helper lemmas about the assembly loop -/

/-- One loop step under a successful move, for a non-empty submodule name:
remove any existing destination entry and append the moved one. -/
theorem processDeps_ok_cons (b m : String) (d : DirEnt) (ds : List DirEnt)
    (tp : List String) (h : normalizeSubmodule d.name ≠ "") :
    processDeps okOracle b m (d :: ds) tp =
      processDeps okOracle b m ds
        (tp.filter (fun e => e ≠ normalizeSubmodule d.name) ++ [normalizeSubmodule d.name]) := by
  simp [processDeps, okOracle, h]

/-- One loop step under a successful move, for an empty submodule name: the
whole `3rdparty` directory is removed and replaced by the moved
dependency. -/
theorem processDeps_ok_cons_empty (b m : String) (d : DirEnt) (ds : List DirEnt)
    (tp : List String) (h : normalizeSubmodule d.name = "") :
    processDeps okOracle b m (d :: ds) tp = processDeps okOracle b m ds d.contents := by
  simp [processDeps, okOracle, h]

/-- A failing move aborts the loop at once with the wrapping error; the
outcome does not depend on the dependencies still to process. -/
theorem processDeps_move_error (oracle : MoveOracle) (b m : String) (d : DirEnt)
    (ds : List DirEnt) (tp : List String) (err : String)
    (h : oracle (pathJoin b (depDiskName d.name)) (depDest m d.name) = some err) :
    processDeps oracle b m (d :: ds) tp =
      Except.error (EBError.move (pathJoin b (depDiskName d.name)) (depDest m d.name) err) := by
  simp [processDeps, h]

/-- When every move succeeds, the loop always terminates successfully with
no dependency left at build-root level. -/
theorem processDeps_okOracle_total (b m : String) (ds : List DirEnt) :
    ∀ tp : List String, ∃ tp', processDeps okOracle b m ds tp = Except.ok ([], tp') := by
  induction ds with
  | nil => exact fun tp => ⟨tp, rfl⟩
  | cons d ds ih =>
    intro tp
    by_cases h : normalizeSubmodule d.name = ""
    · rw [processDeps_ok_cons_empty b m d ds tp h]; exact ih _
    · rw [processDeps_ok_cons b m d ds tp h]; exact ih _

/-- When every move succeeds, every submodule name is non-empty and the
submodule names are pairwise distinct, the loop leaves exactly the
normalized names in `3rdparty` (after the initial entries they overwrite),
and no dependency at build-root level. -/
theorem processDeps_okOracle_eq (b m : String) (ds : List DirEnt) :
    ∀ tp : List String,
      (∀ d ∈ ds, normalizeSubmodule d.name ≠ "") →
      (ds.map (fun d => normalizeSubmodule d.name)).Nodup →
      processDeps okOracle b m ds tp =
        Except.ok ([],
          tp.filter (fun e => e ∉ ds.map (fun d => normalizeSubmodule d.name)) ++
            ds.map (fun d => normalizeSubmodule d.name)) := by
  induction ds with
  | nil => intro tp _ _; simp [processDeps]
  | cons d ds ih =>
    intro tp hne hnd
    simp only [List.map_cons, List.nodup_cons] at hnd
    obtain ⟨hni, hnd'⟩ := hnd
    have hd : normalizeSubmodule d.name ≠ "" := hne d (List.mem_cons_self _ _)
    rw [processDeps_ok_cons b m d ds tp hd,
      ih _ (fun x hx => hne x (List.mem_cons_of_mem _ hx)) hnd']
    have hni' : ∀ x ∈ ds, ¬normalizeSubmodule x.name = normalizeSubmodule d.name :=
      fun x hx he => hni (List.mem_map.mpr ⟨x, hx, he⟩)
    have hfil :
        (tp.filter (fun e => e ≠ normalizeSubmodule d.name) ++ [normalizeSubmodule d.name]).filter
            (fun e => e ∉ ds.map (fun x => normalizeSubmodule x.name)) =
          tp.filter
              (fun e => e ∉ normalizeSubmodule d.name :: ds.map (fun x => normalizeSubmodule x.name)) ++
            [normalizeSubmodule d.name] := by
      rw [List.filter_append, List.filter_filter]
      have h1 :
          List.filter (fun e => e ∉ ds.map (fun x => normalizeSubmodule x.name))
              [normalizeSubmodule d.name] = [normalizeSubmodule d.name] := by
        simp
        exact hni'
      rw [h1]
      congr 1
      apply List.filter_congr
      intro e _
      by_cases h1 : e = normalizeSubmodule d.name <;>
        by_cases h2 : e ∈ ds.map (fun x => normalizeSubmodule x.name) <;>
          simp [h1, h2]
    rw [hfil]
    simp [List.append_assoc]

/-- Reduction of `extract_step` when the glob finds a unique match. -/
theorem extract_step_eq_main (oracle : MoveOracle) (builddir : String)
    (root : List DirEnt) (tp0 : List String) (m : DirEnt)
    (hm : mxnetGlob root = [m]) :
    extract_step oracle builddir root tp0 =
      match processDeps oracle builddir (pathJoin builddir m.name)
          (root.filter (fun d => d.name ≠ m.name)) tp0 with
      | Except.error e => Except.error e
      | Except.ok (rem, tp) => Except.ok (pathJoin builddir m.name, rem, tp) := by
  unfold extract_step
  rw [hm]

/-!  ### Theorems about extract_step (claims C2, C3, C4, C6, C7) -/

/-- C3: assembly scans the build root's children for the `*mxnet-*` pattern
and raises the discovery `EasyBuildError` (listing the matches) exactly
when the number of matching children is not one; with a unique match (and
successful moves) it succeeds and records that child as the main source
directory. -/
theorem extract_step_discovery (oracle : MoveOracle) (builddir : String)
    (root : List DirEnt) (tp0 : List String) :
    ((mxnetGlob root).length ≠ 1 →
      extract_step oracle builddir root tp0 =
        Except.error
          (EBError.discovery ((mxnetGlob root).map (fun d => pathJoin builddir d.name)))) ∧
    (∀ m, mxnetGlob root = [m] →
      ∃ tp, extract_step okOracle builddir root tp0 =
        Except.ok (pathJoin builddir m.name, [], tp)) := by
  constructor
  · intro hn
    rcases hg : mxnetGlob root with _ | ⟨m1, _ | ⟨m2, ms⟩⟩
    · unfold extract_step
      rw [hg]
    · exact absurd (by simp [hg]) hn
    · unfold extract_step
      rw [hg]
  · intro m hm
    rw [extract_step_eq_main okOracle builddir root tp0 m hm]
    obtain ⟨tp', htp'⟩ :=
      processDeps_okOracle_total builddir (pathJoin builddir m.name)
        (root.filter (fun d => d.name ≠ m.name)) tp0
    rw [htp']
    exact ⟨tp', rfl⟩

/-- Witness for C3: a build root with no matching child fails with the
discovery error, and one with a unique match succeeds recording it. -/
theorem extract_step_discovery_witness :
    extract_step okOracle "/b" [DirEnt.mk "notmain" [], DirEnt.mk "tvm-0.7" []] [] =
      Except.error (EBError.discovery []) ∧
    ∃ tp, extract_step okOracle "/b" [DirEnt.mk "mxnet-1.9" [], DirEnt.mk "tvm-0.7" []] [] =
      Except.ok ("/b/mxnet-1.9", [], tp) :=
  ⟨(extract_step_discovery okOracle "/b" [DirEnt.mk "notmain" [], DirEnt.mk "tvm-0.7" []] []).1
      (by decide),
    (extract_step_discovery okOracle "/b" [DirEnt.mk "mxnet-1.9" [], DirEnt.mk "tvm-0.7" []] []).2
      (DirEnt.mk "mxnet-1.9" []) (by decide)⟩

/-- C4: when the filesystem move of a dependency directory fails, assembly
fails with an `EasyBuildError` wrapping the underlying error message; the
failure is reported for the whole step regardless of the dependencies
still to process (no retry). -/
theorem extract_step_move_error (oracle : MoveOracle) (builddir : String)
    (root : List DirEnt) (tp0 : List String) (m d : DirEnt) (ds : List DirEnt)
    (err : String) (hm : mxnetGlob root = [m])
    (hdeps : root.filter (fun x => x.name ≠ m.name) = d :: ds)
    (horacle : oracle (pathJoin builddir (depDiskName d.name))
        (depDest (pathJoin builddir m.name) d.name) = some err) :
    extract_step oracle builddir root tp0 =
      Except.error (EBError.move (pathJoin builddir (depDiskName d.name))
        (depDest (pathJoin builddir m.name) d.name) err) := by
  rw [extract_step_eq_main oracle builddir root tp0 m hm, hdeps,
    processDeps_move_error oracle builddir (pathJoin builddir m.name) d ds tp0 err horacle]

/-- Witness for C4: a concrete failing move is surfaced as the wrapping
error, with further dependencies still pending. -/
theorem extract_step_move_error_witness :
    extract_step (fun src _ => if src = "/b/tvm-0.7" then some "Disk quota exceeded" else none)
        "/b" [DirEnt.mk "mxnet-1.9" [], DirEnt.mk "tvm-0.7" [], DirEnt.mk "dmlc-core-0.5" []] [] =
      Except.error (EBError.move "/b/tvm-0.7" "/b/mxnet-1.9/3rdparty/tvm" "Disk quota exceeded") :=
  extract_step_move_error _ "/b" _ [] (DirEnt.mk "mxnet-1.9" []) (DirEnt.mk "tvm-0.7" [])
    [DirEnt.mk "dmlc-core-0.5" []] "Disk quota exceeded" (by decide) (by decide) (by decide)

/-- C2 (amended): for a build root with a unique main-marked child and N
dependency children whose normalized submodule names are non-empty and
pairwise distinct, and whose `3rdparty` directory initially holds only
placeholders named among those submodule names, assembly yields exactly
the N normalized names under `mainDir/3rdparty` and leaves no dependency
at build-root level. -/
theorem extract_step_assembly (builddir : String) (root : List DirEnt)
    (tp0 : List String) (m : DirEnt) (hm : mxnetGlob root = [m])
    (hne : ∀ d ∈ root.filter (fun d => d.name ≠ m.name), normalizeSubmodule d.name ≠ "")
    (hnd : ((root.filter (fun d => d.name ≠ m.name)).map
      (fun d => normalizeSubmodule d.name)).Nodup)
    (htp0 : ∀ e ∈ tp0, e ∈ (root.filter (fun d => d.name ≠ m.name)).map
      (fun d => normalizeSubmodule d.name)) :
    extract_step okOracle builddir root tp0 =
      Except.ok (pathJoin builddir m.name, [],
        (root.filter (fun d => d.name ≠ m.name)).map (fun d => normalizeSubmodule d.name)) ∧
    ((root.filter (fun d => d.name ≠ m.name)).map (fun d => normalizeSubmodule d.name)).length =
      (root.filter (fun d => d.name ≠ m.name)).length := by
  constructor
  · rw [extract_step_eq_main okOracle builddir root tp0 m hm,
      processDeps_okOracle_eq builddir (pathJoin builddir m.name)
        (root.filter (fun d => d.name ≠ m.name)) tp0 hne hnd]
    have hfil : tp0.filter
        (fun e => e ∉ (root.filter (fun d => d.name ≠ m.name)).map
          (fun d => normalizeSubmodule d.name)) = [] := by
      rw [List.filter_eq_nil_iff]
      intro a ha
      simp only [decide_eq_true_eq, not_not]
      exact htp0 a ha
    rw [hfil]
    simp
  · simp

/-- Witness for C2 (amended) at a concrete build root with two
dependencies and one placeholder. -/
theorem extract_step_assembly_witness :
    extract_step okOracle "/b"
        [DirEnt.mk "mxnet-1.9" [], DirEnt.mk "tvm-0.7" [], DirEnt.mk "ps-lite-a1b2" []]
        ["tvm"] =
      Except.ok ("/b/mxnet-1.9", [], ["tvm", "ps-lite"]) ∧
    (["tvm", "ps-lite"] : List String).length = 2 :=
  ⟨((extract_step_assembly "/b"
      [DirEnt.mk "mxnet-1.9" [], DirEnt.mk "tvm-0.7" [], DirEnt.mk "ps-lite-a1b2" []]
      ["tvm"] (DirEnt.mk "mxnet-1.9" []) (by decide) (by decide) (by decide)
      (by decide)).1), by decide⟩

/-- C2 counterexample: a build root with N = 2 dependency children (`foo-1`
and `foo-2`) for which assembly leaves a single directory under
`mainDir/3rdparty`: the second move first deletes the destination produced
by the first, so "exactly N directories" fails as stated. -/
theorem extract_step_assembly_cex :
    extract_step okOracle "/b"
        [DirEnt.mk "mxnet-1.9" [], DirEnt.mk "foo-1" [], DirEnt.mk "foo-2" []] [] =
      Except.ok ("/b/mxnet-1.9", [], ["foo"]) ∧
    ([DirEnt.mk "foo-1" [], DirEnt.mk "foo-2" []] : List DirEnt).length = 2 ∧
    (["foo"] : List String).length ≠ 2 := by
  refine ⟨?_, by decide, by decide⟩
  rfl

/-- C6: the `oneDNN` rename applies on the name alone: a dependency
directory named `oneDNN-1.2` is destined for `mainDir/3rdparty/mkldnn`,
never `mainDir/3rdparty/oneDNN`, and a concrete assembly run places it at
the `mkldnn` entry of `3rdparty`. -/
theorem extract_step_oneDNN (mainSrcDir : String) :
    depDest mainSrcDir "oneDNN-1.2" = pathJoin (pathJoin mainSrcDir "3rdparty") "mkldnn" ∧
    depDest mainSrcDir "oneDNN-1.2" ≠ pathJoin (pathJoin mainSrcDir "3rdparty") "oneDNN" ∧
    extract_step okOracle "/b"
        [DirEnt.mk "mxnet-1.9" [], DirEnt.mk "oneDNN-1.2" []] [] =
      Except.ok ("/b/mxnet-1.9", [], ["mkldnn"]) := by
  have hsub : normalizeSubmodule "oneDNN-1.2" = "mkldnn" := by decide
  refine ⟨by rw [depDest, hsub], ?_, by rfl⟩
  rw [depDest, hsub]
  have hj : ∀ b : String, b ≠ "" →
      pathJoin (pathJoin mainSrcDir "3rdparty") b = pathJoin mainSrcDir "3rdparty" ++ "/" ++ b :=
    fun b hb => by simp only [pathJoin, if_neg hb]
  rw [hj "mkldnn" (by decide), hj "oneDNN" (by decide)]
  intro hc
  have h2 := congrArg String.data hc
  simp only [String.data_append, List.append_assoc] at h2
  have h3 := List.append_cancel_left h2
  exact absurd h3 (by decide)

/-- C7: a dependency directory name with no hyphen yields the empty
submodule name (`rpartition` puts the whole string in the tail), so its
computed destination is `mainDir/3rdparty` with an empty final component;
the loop does not guard this case and proceeds, replacing the whole
`3rdparty` directory with the moved dependency. -/
theorem extract_step_no_hyphen (s mainSrcDir builddir : String)
    (cs : List String) (ds : List DirEnt) (tp : List String)
    (h : '-' ∉ s.toList) :
    rpartitionHead s = "" ∧
    depDest mainSrcDir s = pathJoin mainSrcDir "3rdparty" ++ "/" ∧
    processDeps okOracle builddir mainSrcDir (DirEnt.mk s cs :: ds) tp =
      processDeps okOracle builddir mainSrcDir ds cs := by
  have haux : ∀ l : List Char, '-' ∉ l → rpartHyphenAux l = none := by
    intro l
    induction l with
    | nil => intro _; rfl
    | cons c cs ih =>
      intro hl
      rw [rpartHyphenAux, ih (fun hm => hl (List.mem_cons_of_mem _ hm))]
      simp only [List.mem_cons, not_or] at hl
      simp [Ne.symm hl.1]
  have hr : rpartitionHead s = "" := by rw [rpartitionHead, haux s.toList h]
  have hn : normalizeSubmodule s = "" := by
    rw [normalizeSubmodule, hr]
    simp
  refine ⟨hr, ?_, ?_⟩
  · simp [depDest, hn, pathJoin]
  · exact processDeps_ok_cons_empty builddir mainSrcDir (DirEnt.mk s cs) ds tp hn

/-- Witness for C7 at the hyphen-free dependency name `ittapi`. -/
theorem extract_step_no_hyphen_witness :
    rpartitionHead "ittapi" = "" ∧
    depDest "/b/mxnet-1.9" "ittapi" = pathJoin "/b/mxnet-1.9" "3rdparty" ++ "/" ∧
    processDeps okOracle "/b" "/b/mxnet-1.9" [DirEnt.mk "ittapi" ["src"]] [] =
      processDeps okOracle "/b" "/b/mxnet-1.9" [] ["src"] :=
  extract_step_no_hyphen "ittapi" "/b/mxnet-1.9" "/b" ["src"] [] [] (by decide)

/-!  ### Theorems about the binding installs and module output (C8, C9) -/

/-- C8: the R-extension switch defaults to disabled; with it disabled the
extensions step writes no `NAMESPACE` manifest and attempts no R install
pass (hence no two-pass install) while the Python binding is still
installed, yet the R binding's sanity check still runs during the
sanity-check step once the fake module loads and the Python check
passes. -/
theorem extensions_step_r_disabled (fakeModOk pyOk rOk : Bool)
    (hf : fakeModOk = true) (hp : pyOk = true) :
    install_r_ext_default = false ∧
    Action.writeNamespaceFile ∉ extensions_step false ∧
    Action.rInstallRun ∉ extensions_step false ∧
    Action.pyRun ∈ extensions_step false ∧
    Action.rSanityCheck ∈ (sanity_check_step fakeModOk pyOk rOk).1 := by
  subst hf hp
  refine ⟨rfl, by decide, by decide, by decide, ?_⟩
  cases rOk <;> decide

/-- Witness for C8 with all sanity sub-checks succeeding. -/
theorem extensions_step_r_disabled_witness :
    install_r_ext_default = false ∧
    Action.writeNamespaceFile ∉ extensions_step false ∧
    Action.rInstallRun ∉ extensions_step false ∧
    Action.pyRun ∈ extensions_step false ∧
    Action.rSanityCheck ∈ (sanity_check_step true true true).1 :=
  extensions_step_r_disabled true true true rfl rfl

/-- C9: the generated module text prepends `PYTHONPATH` with a candidate
binding directory exactly when its full path exists and is non-empty, and
always prepends `R_LIBS` with the installation root. -/
theorem make_module_extra_paths (installdir : String) (all_pylibdirs : List String)
    (dirExists : String → Bool) (listDir : String → List String) (p : String)
    (hp : p ∈ all_pylibdirs) :
    (PrependStmt.mk "PYTHONPATH" p ∈
        make_module_extra installdir all_pylibdirs dirExists listDir ↔
      (dirExists (pathJoin installdir p) = true ∧ listDir (pathJoin installdir p) ≠ [])) ∧
    PrependStmt.mk "R_LIBS" "" ∈
      make_module_extra installdir all_pylibdirs dirExists listDir := by
  constructor
  · unfold make_module_extra
    rw [List.mem_append]
    constructor
    · intro h
      rcases h with h | h
      · obtain ⟨q, hq, he⟩ := List.mem_map.mp h
        obtain ⟨_, hq2⟩ := List.mem_filter.mp hq
        injection he with _ h2
        subst h2
        simp only [Bool.and_eq_true, Bool.not_eq_true'] at hq2
        exact ⟨hq2.1, fun hnil => by simp [hnil] at hq2⟩
      · rw [List.mem_singleton] at h
        injection h with h1 _
        exact absurd h1 (by decide)
    · rintro ⟨hex, hne⟩
      apply Or.inl
      apply List.mem_map.mpr
      refine ⟨p, List.mem_filter.mpr ⟨hp, ?_⟩, rfl⟩
      simp only [Bool.and_eq_true, Bool.not_eq_true']
      refine ⟨hex, ?_⟩
      cases hl : listDir (pathJoin installdir p) with
      | nil => exact absurd hl hne
      | cons a l => rfl
  · simp [make_module_extra]

/-- Witness for C9 at a concrete installation with one existing non-empty
directory and one empty directory. -/
theorem make_module_extra_paths_witness :
    (PrependStmt.mk "PYTHONPATH" "lib/py" ∈
        make_module_extra "/i" ["lib/py", "lib/empty"]
          (fun _ => true) (fun s => if s = "/i/lib/py" then ["pkg"] else []) ↔
      ((fun _ => true) (pathJoin "/i" "lib/py") = true ∧
        (fun s => if s = "/i/lib/py" then ["pkg"] else []) (pathJoin "/i" "lib/py") ≠ [])) ∧
    PrependStmt.mk "R_LIBS" "" ∈
      make_module_extra "/i" ["lib/py", "lib/empty"]
        (fun _ => true) (fun s => if s = "/i/lib/py" then ["pkg"] else []) :=
  make_module_extra_paths "/i" ["lib/py", "lib/empty"] (fun _ => true)
    (fun s => if s = "/i/lib/py" then ["pkg"] else []) "lib/py" (by decide)

end MXNet
